import Mathlib

/-!
Shallow embedding of the two Azure language-detection command-line clients
(`rest-client.py` and `sdk-client.py` under
`Labfiles/01-use-azure-ai-services/Python/`), together with proofs about
their validation, configuration-loading, request-building, response-handling
and interactive-loop behaviour.

Python exceptions are modelled as an explicit error type carried in
`Except`; machine strings are Lean `String`s and the ASCII semantics of the
Python string operations used by the scripts (`strip`, `lower`, `rstrip`,
`replace`, `startswith`) is embedded directly.
-/

/-- The exception kinds the two scripts raise or catch.  `configurationError`,
`inputError` and `apiError` model the classes defined in `rest-client.py`
(and `ConfigurationError`/`InputError` in `sdk-client.py`); `azureError`
models `azure.core.exceptions.AzureError`; `indexError` models Python's
built-in `IndexError`; `otherError` models any other `Exception` (KeyError,
TypeError, ...).  The carried string is `str(exception)`. -/
inductive PyError where
  | configurationError (msg : String)
  | inputError (msg : String)
  | apiError (msg : String)
  | azureError (msg : String)
  | indexError (msg : String)
  | otherError (msg : String)
deriving Repr, DecidableEq

/-- The message of an exception, i.e. Python's `str(e)` / `f"{e}"`. -/
def PyError.msg : PyError → String
  | .configurationError m => m
  | .inputError m => m
  | .apiError m => m
  | .azureError m => m
  | .indexError m => m
  | .otherError m => m

/-- ASCII whitespace as recognised by Python's `str.strip()` (space, tab,
newline, carriage return, vertical tab, form feed).  Non-ASCII Unicode
whitespace is not modelled; the scripts only ever compare against ASCII. -/
def pyIsSpace (c : Char) : Bool :=
  c = ' ' || c = '\t' || c = '\n' || c = '\r' || c = '\x0b' || c = '\x0c'

/-- Python `text.strip()`: remove leading and trailing whitespace. -/
def pyStrip (s : String) : String :=
  String.mk (((s.data.dropWhile pyIsSpace).reverse.dropWhile pyIsSpace).reverse)

/-- Lower-casing of one character, ASCII range (Python `str.lower` restricted
to ASCII, which is all the scripts compare against). -/
def pyLowerChar (c : Char) : Char :=
  if 'A' ≤ c ∧ c ≤ 'Z' then Char.ofNat (c.toNat + 32) else c

/-- Python `text.lower()` (ASCII semantics). -/
def pyLower (s : String) : String :=
  String.mk (s.data.map pyLowerChar)

/-- Python `s.startswith(pre)`: the character list of `pre` is a prefix of
that of `s`. -/
def pyStartsWith (s pre : String) : Bool :=
  pre.data.isPrefixOf s.data

/-- Python `s.rstrip(c)` for a single strip character: remove every trailing
occurrence of `c`. -/
def pyRstripChar (s : String) (c : Char) : String :=
  String.mk (s.data.reverse.dropWhile (· = c)).reverse

/-- `os.getenv` results for the two variables both scripts read (after
`load_dotenv()`): `none` models an unset variable, `some ""` a variable set
to the empty string. -/
structure Env where
  endpoint : Option String
  key : Option String
deriving Repr, DecidableEq

/-- Python truthiness test `not x` for an `Optional[str]`: true for `None`
and for the empty string. -/
def pyFalsyOpt : Option String → Bool
  | none => true
  | some s => s == ""

/-- Message of the `ConfigurationError` raised for missing variables
(`rest-client.py` line 68, `sdk-client.py` line 57). -/
def cfgMissingMsg : String :=
  "Missing required environment variables: AI_SERVICE_ENDPOINT and/or AI_SERVICE_KEY"

/-- Message of the `ConfigurationError` raised for a non-https endpoint
(`rest-client.py` line 71, `sdk-client.py` line 60). -/
def cfgSchemeMsg : String :=
  "AI_SERVICE_ENDPOINT must start with \x27https://\x27"

/-- `validate_configuration` of `rest-client.py` (lines 53-73): raise a
`ConfigurationError` when either variable is falsy (`if not endpoint or not
key`) or when the endpoint does not start with `https://`; otherwise return
the pair `(endpoint, key)` exactly as read from the environment. -/
def validate_configuration (env : Env) : Except PyError (String × String) :=
  if pyFalsyOpt env.endpoint || pyFalsyOpt env.key then
    .error (.configurationError cfgMissingMsg)
  else
    let e := env.endpoint.getD ""
    let k := env.key.getD ""
    if !(pyStartsWith e "https://") then
      .error (.configurationError cfgSchemeMsg)
    else
      .ok (e, k)

/-- The `Config` dataclass of `sdk-client.py` (lines 35-39). -/
structure Config where
  endpoint : String
  key : String
deriving Repr, DecidableEq

/-- `Config.from_env` of `sdk-client.py` (lines 41-62): same checks as
`validate_configuration`, returning a `Config` record. -/
def Config.from_env (env : Env) : Except PyError Config :=
  if pyFalsyOpt env.endpoint || pyFalsyOpt env.key then
    .error (.configurationError cfgMissingMsg)
  else
    let e := env.endpoint.getD ""
    let k := env.key.getD ""
    if !(pyStartsWith e "https://") then
      .error (.configurationError cfgSchemeMsg)
    else
      .ok ⟨e, k⟩

/-- `validate_text` of `rest-client.py` (lines 75-88): `InputError` when the
stripped text is empty or when the raw length exceeds 5000 characters. -/
def validate_text (text : String) : Except PyError Unit :=
  if pyStrip text = "" then
    .error (.inputError "Text cannot be empty")
  else if text.length > 5000 then
    .error (.inputError "Text length exceeds maximum of 5000 characters")
  else
    .ok ()

/-- `TextValidator.MAX_TEXT_LENGTH` of `sdk-client.py` (line 67). -/
def TextValidator.MAX_TEXT_LENGTH : Nat := 5000

/-- `TextValidator.validate` of `sdk-client.py` (lines 69-83): `InputError`
when the stripped text is empty or the raw length exceeds
`MAX_TEXT_LENGTH`. -/
def TextValidator.validate (text : String) : Except PyError Unit :=
  if pyStrip text = "" then
    .error (.inputError "Text cannot be empty")
  else if text.length > TextValidator.MAX_TEXT_LENGTH then
    .error (.inputError ("Text length exceeds maximum of "
      ++ toString TextValidator.MAX_TEXT_LENGTH ++ " characters"))
  else
    .ok ()

/-- JSON values as produced by `json.loads` on a response body.  Object
fields keep insertion order and (being the output of `json.loads`, which
builds a `dict`) have pairwise-distinct keys; numbers are modelled as
integers (no float appears in any behaviour the scripts inspect). -/
inductive Json where
  | null
  | bool (b : Bool)
  | num (n : Int)
  | str (s : String)
  | arr (elems : List Json)
  | obj (fields : List (String × Json))
deriving Repr

/-- One hexadecimal digit, lower case, as Python prints it. -/
def hexDigit (n : Nat) : Char :=
  if n < 10 then Char.ofNat (48 + n) else Char.ofNat (87 + n)

/-- Two-digit lower-case hexadecimal rendering of a byte. -/
def hex2 (n : Nat) : String :=
  String.mk [hexDigit (n / 16), hexDigit (n % 16)]

/-- Escaping of one character inside a Python string repr delimited by the
quote character `q`: backslash and the delimiter are backslash-escaped,
newline / carriage return / tab use their short escapes, other ASCII control
characters use a hexadecimal escape, and everything else stands for
itself. -/
def pyReprEscChar (q : Char) (c : Char) : String :=
  if c = '\\' then "\\\\"
  else if c = q then "\\" ++ String.mk [q]
  else if c = '\n' then "\\n"
  else if c = '\r' then "\\r"
  else if c = '\t' then "\\t"
  else if c.toNat < 32 ∨ c.toNat = 127 then "\\x" ++ hex2 c.toNat
  else String.mk [c]

/-- The concatenated `pyReprEscChar` escapes of a character list. -/
def pyReprEsc (q : Char) : List Char → String
  | [] => ""
  | c :: cs => pyReprEscChar q c ++ pyReprEsc q cs

/-- The delimiter Python `repr()` picks for a `str`: a single quote, unless
the string contains a single quote and no double quote, in which case a
double quote. -/
def pyReprQuote (s : String) : Char :=
  if s.data.contains '\x27' && !(s.data.contains '"') then '"' else '\x27'

/-- Python `repr()` of a `str`: the chosen delimiter around the contents
escaped per `pyReprEscChar`. -/
def pyReprStr (s : String) : String :=
  String.mk [pyReprQuote s] ++ pyReprEsc (pyReprQuote s) s.data ++ String.mk [pyReprQuote s]

mutual

/-- Python `repr()` of a value decoded from JSON: `None`/`True`/`False`,
decimal integers, `pyReprStr` for strings, bracketed comma-separated lists,
and braced `key: value` dicts. -/
def pyReprJson : Json → String
  | .null => "None"
  | .bool true => "True"
  | .bool false => "False"
  | .num n => toString n
  | .str s => pyReprStr s
  | .arr xs => "[" ++ pyReprJsonList xs ++ "]"
  | .obj fs => "\x7b" ++ pyReprJsonFields fs ++ "\x7d"

/-- Comma-and-space separated reprs of list elements. -/
def pyReprJsonList : List Json → String
  | [] => ""
  | [x] => pyReprJson x
  | x :: y :: xs => pyReprJson x ++ ", " ++ pyReprJsonList (y :: xs)

/-- Comma-and-space separated `repr(key): repr(value)` renderings of dict
fields. -/
def pyReprJsonFields : List (String × Json) → String
  | [] => ""
  | [(k, v)] => pyReprStr k ++ ": " ++ pyReprJson v
  | (k, v) :: f :: fs => pyReprStr k ++ ": " ++ pyReprJson v ++ ", " ++ pyReprJsonFields (f :: fs)

end

/-- Python `str()` of a value decoded from JSON: the string itself for a
`str`, `repr` for everything else (the behaviour of `print` on such a
value). -/
def pyStrJson : Json → String
  | .str s => s
  | j => pyReprJson j

/-- Python subscription `j[key]` on a decoded JSON value: field lookup on a
dict (the `str()` of the `KeyError` raised for a missing key is the repr of
the key); a `TypeError` on anything that is not a dict.  The `TypeError`
message is indicative: no behaviour of the scripts inspects it. -/
def jsonGet (j : Json) (key : String) : Except PyError Json :=
  match j with
  | .obj fields =>
    match fields.lookup key with
    | some v => .ok v
    | none => .error (.otherError (pyReprStr key))
  | _ => .error (.otherError "TypeError: value is not subscriptable by a string key")

/-- Python iteration `for x in j` on a decoded JSON value: the elements of a
list, the characters of a string (each a one-character string), the keys of
a dict; a `TypeError` on `None`, booleans and numbers (message indicative,
never inspected). -/
def pyIterElems (j : Json) : Except PyError (List Json) :=
  match j with
  | .arr xs => .ok xs
  | .str s => .ok (s.data.map fun c => .str (String.mk [c]))
  | .obj fields => .ok (fields.map fun kv => Json.str kv.1)
  | _ => .error (.otherError "TypeError: value is not iterable")

/-- The HTTP request `GetLanguage` hands to `http.client`: connection host,
method, path, encoded body and header dictionary. -/
structure HTTPRequest where
  host : String
  method : String
  path : String
  body : String
  headers : List (String × String)
deriving Repr, DecidableEq

/-- The `jsonBody` dict built by `GetLanguage` (`rest-client.py` lines
155-160): a single document with integer id `1` and the supplied text. -/
def jsonBodyValue (text : String) : Json :=
  .obj [("documents", .arr [.obj [("id", .num 1), ("text", .str text)]])]

/-- The request of `rest-client.py` lines 166-176: host is the endpoint with
trailing slashes stripped and every `https://` occurrence removed
(`endpoint.rstrip(\x27/\x27).replace(\x27https://\x27, \x27\x27)`), a POST
to the fixed versioned path, the body `str(jsonBody).encode(\x27utf-8\x27)`
— Python str() of the dict, not `json.dumps` — and the two headers of lines
170-173. -/
def buildLanguageRequest (endpoint key text : String) : HTTPRequest :=
  { host := (pyRstripChar endpoint '/').replace "https://" ""
    method := "POST"
    path := "/text/analytics/v3.1/languages?"
    body := pyReprJson (jsonBodyValue text)
    headers := [("Content-Type", "application/json"), ("Ocp-Apim-Subscription-Key", key)] }

/-- What `conn.getresponse()` plus `response.read().decode("UTF-8")` yield:
the status code, the decoded body text, and the outcome of `json.loads` on
that text (`.error m` models a `json.JSONDecodeError` with `str` `m`). -/
structure HTTPResponse where
  status : Nat
  data : String
  json : Except String Json
deriving Repr

/-- One console write: `line s` models `print` of the string `s` (or the
prompt string handed to `input`), `dump j` models
`print(json.dumps(j, indent=2))` — the dumped value is recorded rather than
its indented rendering, which no behaviour depends on. -/
inductive Output where
  | line (s : String)
  | dump (j : Json)
deriving Repr

/-- The `for document in results["documents"]` loop of `rest-client.py`
lines 189-190: prints one `\nLanguage: <name>` line per document (print with
two arguments joins them with a space), stopping with the raised exception
if a subscription fails; outputs printed before the failure are kept. -/
def printLanguages : List Json → List Output × Except PyError Unit
  | [] => ([], .ok ())
  | d :: ds =>
    match jsonGet d "detectedLanguage" with
    | .error e => ([], .error e)
    | .ok dl =>
      match jsonGet dl "name" with
      | .error e => ([], .error e)
      | .ok nm =>
        let rest := printLanguages ds
        (.line ("\nLanguage: " ++ pyStrJson nm) :: rest.1, rest.2)

/-- The final `except Exception as ex` clause of `GetLanguage` (lines
201-202): any exception other than a `JSONDecodeError` or `HTTPException`
raised inside the `try` block — including the `APIError` raised for a
non-200 status — is re-raised as
`APIError(f"Unexpected error during API call: \x7bex\x7d")`. -/
def wrapUnexpected (e : PyError) : PyError :=
  .apiError ("Unexpected error during API call: " ++ e.msg)

/-- The observable behaviour of one `GetLanguage` call: the request it sent,
the console lines it printed, and its outcome (`.ok` or a raised
exception). -/
structure CallResult where
  request : HTTPRequest
  outputs : List Output
  result : Except PyError Unit
deriving Repr

/-- `GetLanguage` of `rest-client.py` (lines 135-202), with the network
round-trip abstracted by the supplied `resp`: build and dump the request
body, send the request; on status 200 dump the parsed body and print each
document's `detectedLanguage.name`; otherwise raise an `APIError` carrying
the status and raw body.  A `JSONDecodeError` is caught by its own clause
(line 197-198); every other exception — including the status-mismatch
`APIError` itself — falls to the generic clause and is wrapped by
`wrapUnexpected`. -/
def GetLanguage (endpoint key text : String) (resp : HTTPResponse) : CallResult :=
  let req := buildLanguageRequest endpoint key text
  let dumpReq : List Output := [.dump (jsonBodyValue text)]
  if resp.status = 200 then
    match resp.json with
    | .error m => ⟨req, dumpReq, .error (.apiError ("Failed to parse API response: " ++ m))⟩
    | .ok results =>
      let outs := dumpReq ++ [.dump results]
      match jsonGet results "documents" with
      | .error e => ⟨req, outs, .error (wrapUnexpected e)⟩
      | .ok docsJ =>
        match pyIterElems docsJ with
        | .error e => ⟨req, outs, .error (wrapUnexpected e)⟩
        | .ok docs =>
          let pl := printLanguages docs
          ⟨req, outs ++ pl.1,
            match pl.2 with
            | .ok _ => .ok ()
            | .error e => .error (wrapUnexpected e)⟩
  else
    ⟨req, dumpReq, .error (wrapUnexpected (.apiError
      ("API returned status " ++ toString resp.status ++ ": " ++ resp.data)))⟩

/-- The `primary_language` attribute of an SDK detection result. -/
structure DetectedLanguage where
  name : String
deriving Repr, DecidableEq

/-- One element of the list returned by the SDK's
`client.detect_language`. -/
structure DetectLanguageResult where
  primary_language : DetectedLanguage
deriving Repr, DecidableEq

/-- `LanguageDetector.detect_language` of `sdk-client.py` (lines 98-115),
with the SDK call abstracted by `serviceResult` (`.error m` models an
`AzureError` with `str` `m` raised by the SDK).  An `AzureError` is caught
and re-raised wrapped (lines 114-115); indexing `[0]` into an empty result
list raises an `IndexError`, which no clause of the method catches. -/
def detect_language (serviceResult : Except String (List DetectLanguageResult)) :
    Except PyError String :=
  match serviceResult with
  | .ok docs =>
    match docs with
    | [] => .error (.indexError "list index out of range")
    | d :: _ => .ok d.primary_language.name
  | .error m => .error (.azureError ("Failed to detect language: " ++ m))

/-- The prompt string `rest-client.py` line 114 hands to `input`. -/
def restPrompt : String := "Enter some text (\"quit\" to stop)\n"

/-- The prompt string `sdk-client.py` line 159 hands to `input`. -/
def sdkPrompt : String := "\nEnter some text (\"quit\" to stop)\n"

/-- The except chain of the REST loop body (`rest-client.py` lines 118-126):
`InputError` and `APIError` get their kind prefixes, anything else is
printed as unexpected. -/
def restExceptLine (e : PyError) : String :=
  match e with
  | .inputError m => "Input error: " ++ m
  | .apiError m => "API error: " ++ m
  | e => "Unexpected error: " ++ e.msg

/-- The except chain of the SDK loop body (`sdk-client.py` lines 164-172):
`InputError` and `AzureError` get their kind prefixes, anything else is
printed as unexpected. -/
def sdkExceptLine (e : PyError) : String :=
  match e with
  | .inputError m => "Input error: " ++ m
  | .azureError m => "Azure service error: " ++ m
  | e => "Unexpected error: " ++ e.msg

/-- The outer except chain shared by both `main` functions: a
`ConfigurationError` is printed with its prefix, any other fatal exception
as `Fatal error`; either way it is re-raised. -/
def fatalLine (e : PyError) : String :=
  match e with
  | .configurationError m => "Configuration error: " ++ m
  | e => "Fatal error: " ++ e.msg

/-- One REST loop iteration's environment interaction: the line `input`
returned and the HTTP response the service would give for it. -/
structure RestIter where
  line : String
  resp : HTTPResponse
deriving Repr

/-- The body of one non-quit REST loop iteration (`rest-client.py` lines
116-126): validate, call `GetLanguage`, map a raised exception to its
printed line. -/
def restIterOutputs (endpoint key : String) (it : RestIter) : List Output :=
  match validate_text it.line with
  | .error e => [.line (restExceptLine e)]
  | .ok _ =>
    let call := GetLanguage endpoint key it.line it.resp
    call.outputs ++
      match call.result with
      | .ok _ => []
      | .error e => [.line (restExceptLine e)]

/-- The `while userText.lower() != \x27quit\x27` loop of `rest-client.py`
(lines 111-126) over a finite prefix of standard input: each iteration
prints the prompt, reads a line, and either stops (lower-cased line equals
`quit`, nothing further runs) or runs the iteration body and continues. -/
def restLoop (endpoint key : String) : List RestIter → List Output
  | [] => []
  | it :: rest =>
    if pyLower it.line = "quit" then [.line restPrompt]
    else .line restPrompt :: (restIterOutputs endpoint key it ++ restLoop endpoint key rest)

/-- `main` of `rest-client.py` (lines 90-133): load the configuration —
failure is printed and re-raised, i.e. fatal — then run the loop, whose
body swallows every exception, so a loaded configuration always ends in
normal termination. -/
def rest_main (env : Env) (iters : List RestIter) : List Output × Except PyError Unit :=
  match validate_configuration env with
  | .error e => ([.line (fatalLine e)], .error e)
  | .ok cfg => (restLoop cfg.1 cfg.2 iters, .ok ())

/-- One SDK loop iteration's environment interaction: the line `input`
returned and the SDK call outcome for it. -/
structure SdkIter where
  line : String
  serviceResult : Except String (List DetectLanguageResult)
deriving Repr

/-- The body of one non-quit SDK loop iteration (`sdk-client.py` lines
160-172): validate, detect, print `Language: <name>` on success, else the
printed exception line. -/
def sdkIterOutputs (it : SdkIter) : List Output :=
  match TextValidator.validate it.line with
  | .error e => [.line (sdkExceptLine e)]
  | .ok _ =>
    match detect_language it.serviceResult with
    | .ok lang => [.line ("Language: " ++ lang)]
    | .error e => [.line (sdkExceptLine e)]

/-- The `while user_text.lower() != \x27quit\x27` loop of `sdk-client.py`
(lines 156-172) over a finite prefix of standard input. -/
def sdkLoop : List SdkIter → List Output
  | [] => []
  | it :: rest =>
    if pyLower it.line = "quit" then [.line sdkPrompt]
    else .line sdkPrompt :: (sdkIterOutputs it ++ sdkLoop rest)

/-- `main` of `sdk-client.py` (lines 134-179): load the configuration —
failure is printed and re-raised, i.e. fatal — then run the loop, whose
body swallows every exception. -/
def sdk_main (env : Env) (iters : List SdkIter) : List Output × Except PyError Unit :=
  match Config.from_env env with
  | .error e => ([.line (fatalLine e)], .error e)
  | .ok _ => (sdkLoop iters, .ok ())

/-! ## Concrete test inputs used by the theorems below -/

/-- A 5001-character test input: 5000 letters followed by one trailing
space, so its stripped form has exactly 5000 characters. -/
def longTextInput : String := String.mk (List.replicate 5000 'a' ++ [' '])

/-- An environment whose two variables are both present and whose endpoint is
well-formed, but whose key is the empty string. -/
def emptyKeyEnv : Env := ⟨some "https://example.com", some ""⟩

/-- A 200-response document whose detected language is named English. -/
def englishDoc : Json := .obj [("detectedLanguage", .obj [("name", .str "English")])]

/-- A 200-response body with `englishDoc` as its only document. -/
def englishResults : Json := .obj [("documents", .arr [englishDoc])]

/-! ## Input validation (claims C1) -/

lemma stripList_longText :
    (((List.replicate 5000 'a' ++ [' ']).dropWhile pyIsSpace).reverse.dropWhile
        pyIsSpace).reverse = List.replicate 5000 'a' := by
  have ha : pyIsSpace 'a' = false := by decide
  have hs : pyIsSpace ' ' = true := by decide
  have h1 : List.dropWhile pyIsSpace (List.replicate 5000 'a' ++ [' '])
      = List.replicate 5000 'a' ++ [' '] := by
    rw [show (5000 : Nat) = 4999 + 1 by norm_num, List.replicate_succ,
      List.cons_append, List.dropWhile_cons, ha, if_neg Bool.false_ne_true]
  rw [h1, List.reverse_append, List.reverse_replicate]
  have h2 : List.dropWhile pyIsSpace ([' '].reverse ++ List.replicate 5000 'a')
      = List.replicate 5000 'a' := by
    rw [List.reverse_singleton, List.singleton_append, List.dropWhile_cons, hs,
      if_pos rfl, List.dropWhile_replicate, ha, if_neg Bool.false_ne_true]
  rw [h2, List.reverse_replicate]

lemma pyStrip_longTextInput :
    pyStrip longTextInput = String.mk (List.replicate 5000 'a') := by
  have h : pyStrip longTextInput
      = String.mk ((((List.replicate 5000 'a' ++ [' ']).dropWhile
          pyIsSpace).reverse.dropWhile pyIsSpace).reverse) := rfl
  rw [h, stripList_longText]

lemma longTextInput_length : longTextInput.length = 5001 := by
  show (List.replicate 5000 'a' ++ [' ']).length = 5001
  rw [List.length_append, List.length_replicate, List.length_singleton]

/-- C1 counterexample: `longTextInput` strips to a non-empty text of exactly
5000 characters, yet both validators reject it, because the 5000-character
limit is checked on the raw, un-stripped length (5001 here). -/
theorem c1_trimmed_length_counterexample :
    pyStrip longTextInput ≠ ""
  ∧ (pyStrip longTextInput).length = 5000
  ∧ validate_text longTextInput
      = .error (.inputError "Text length exceeds maximum of 5000 characters")
  ∧ TextValidator.validate longTextInput
      = .error (.inputError "Text length exceeds maximum of 5000 characters") := by
  have hstrip := pyStrip_longTextInput
  have hne : pyStrip longTextInput ≠ "" := by
    rw [hstrip]
    intro h
    have h2 := congrArg String.data h
    rw [show (String.mk (List.replicate 5000 'a')).data = List.replicate 5000 'a' from rfl,
      show ("" : String).data = [] from rfl] at h2
    have h3 := congrArg List.length h2
    rw [List.length_replicate, List.length_nil] at h3
    exact absurd h3 (by norm_num)
  have hlen : (pyStrip longTextInput).length = 5000 := by
    rw [hstrip, String.length_mk, List.length_replicate]
  have hgt : 5000 < longTextInput.length := by rw [longTextInput_length]; norm_num
  have hmsg : ("Text length exceeds maximum of "
      ++ toString TextValidator.MAX_TEXT_LENGTH ++ " characters")
      = "Text length exceeds maximum of 5000 characters" := rfl
  refine ⟨hne, hlen, ?_, ?_⟩
  · unfold validate_text
    rw [if_neg hne, if_pos (by omega)]
  · unfold TextValidator.validate
    rw [if_neg hne, if_pos (by rw [TextValidator.MAX_TEXT_LENGTH]; omega), hmsg]

/-- C1 (amended): `validate` succeeds exactly when the stripped text is
non-empty and the raw (not the stripped) length is at most 5000; every
failure is an `InputError`; the two variants agree. -/
theorem validate_raw_length_spec (t : String) :
    (validate_text t = .ok () ↔ (pyStrip t ≠ "" ∧ t.length ≤ 5000))
  ∧ (pyStrip t = "" → validate_text t = .error (.inputError "Text cannot be empty"))
  ∧ (pyStrip t ≠ "" → 5000 < t.length →
       validate_text t
         = .error (.inputError "Text length exceeds maximum of 5000 characters"))
  ∧ TextValidator.validate t = validate_text t := by
  have hmsg : ("Text length exceeds maximum of "
      ++ toString TextValidator.MAX_TEXT_LENGTH ++ " characters")
      = "Text length exceeds maximum of 5000 characters" := rfl
  unfold validate_text TextValidator.validate
  rw [hmsg, TextValidator.MAX_TEXT_LENGTH]
  split_ifs with h1 h2 <;> simp_all

/-! ## Configuration loading (claims C2, C9) -/

/-- C2 counterexample: in `emptyKeyEnv` neither variable is absent and the
endpoint starts with `https://`, yet both loaders fail with a
`ConfigurationError`, because a present-but-empty value is rejected by the
truthiness test. -/
theorem c2_empty_value_counterexample :
    emptyKeyEnv.endpoint = some "https://example.com"
  ∧ emptyKeyEnv.key = some ""
  ∧ pyStartsWith "https://example.com" "https://" = true
  ∧ validate_configuration emptyKeyEnv = .error (.configurationError cfgMissingMsg)
  ∧ Config.from_env emptyKeyEnv = .error (.configurationError cfgMissingMsg) :=
  ⟨rfl, rfl, by decide, rfl, rfl⟩

/-- C2 (amended): the loaders fail with `ConfigurationError` when either
variable is absent or empty, and when the endpoint does not start with
`https://`; in every other case they succeed and return exactly the values
supplied, so every produced configuration has an endpoint beginning with
`https://` and a non-empty key.  The SDK loader is the REST loader up to
repackaging of the pair. -/
theorem config_load_spec (e k : Option String) :
    (∀ p : String × String, validate_configuration ⟨e, k⟩ = .ok p →
       e = some p.1 ∧ k = some p.2 ∧ pyStartsWith p.1 "https://" = true ∧ p.2 ≠ "")
  ∧ ((∃ p, validate_configuration ⟨e, k⟩ = .ok p) ↔
       ∃ ev kv, e = some ev ∧ k = some kv ∧ ev ≠ "" ∧ kv ≠ ""
         ∧ pyStartsWith ev "https://" = true)
  ∧ (∀ err, validate_configuration ⟨e, k⟩ = .error err → ∃ m, err = .configurationError m)
  ∧ Config.from_env ⟨e, k⟩ = (validate_configuration ⟨e, k⟩).map fun p => ⟨p.1, p.2⟩ := by
  cases e with
  | none => simp [validate_configuration, Config.from_env, pyFalsyOpt, Except.map]
  | some ev =>
    cases k with
    | none => simp [validate_configuration, Config.from_env, pyFalsyOpt, Except.map]
    | some kv =>
      by_cases hev : ev = "" <;> by_cases hkv : kv = "" <;>
        by_cases hsw : pyStartsWith ev "https://" = true <;>
        simp_all [validate_configuration, Config.from_env, pyFalsyOpt, Except.map]

/-- C9: a variable that is present but set to the empty string is treated
exactly like an absent one: both loaders behave identically on the two
environments, and the empty-value case raises the missing-variables
`ConfigurationError`. -/
theorem config_empty_value_like_missing (e k : Option String) :
    validate_configuration ⟨some "", k⟩ = validate_configuration ⟨none, k⟩
  ∧ validate_configuration ⟨e, some ""⟩ = validate_configuration ⟨e, none⟩
  ∧ Config.from_env ⟨some "", k⟩ = Config.from_env ⟨none, k⟩
  ∧ Config.from_env ⟨e, some ""⟩ = Config.from_env ⟨e, none⟩
  ∧ validate_configuration ⟨some "", k⟩ = .error (.configurationError cfgMissingMsg)
  ∧ validate_configuration ⟨e, some ""⟩ = .error (.configurationError cfgMissingMsg)
  ∧ Config.from_env ⟨some "", k⟩ = .error (.configurationError cfgMissingMsg)
  ∧ Config.from_env ⟨e, some ""⟩ = .error (.configurationError cfgMissingMsg) := by
  simp [validate_configuration, Config.from_env, pyFalsyOpt]

/-! ## The quit sentinel (claim C3) -/

/-- C3 counterexample: the line `" quit"` trims (case-insensitively) to the
sentinel word, yet the loop does not terminate on it: the validator and the
client run on that line (its detected language is printed) and the next line
is still processed, because the code compares `lower()` without stripping. -/
theorem c3_untrimmed_quit_counterexample :
    pyStrip (pyLower " quit") = "quit"
  ∧ sdkLoop [⟨" quit", .ok [⟨⟨"English"⟩⟩]⟩, ⟨"Hello", .ok [⟨⟨"English"⟩⟩]⟩]
      = [.line sdkPrompt, .line "Language: English",
         .line sdkPrompt, .line "Language: English"] :=
  ⟨rfl, rfl⟩

/-- C3 (amended): for every line whose lower-cased value — without any
trimming — equals `quit`, both loops terminate normally at that line,
printing only the prompt: neither the validator nor the language client runs
on it and no later iteration is processed. -/
theorem lowercase_quit_terminates (line : String)
    (r : Except String (List DetectLanguageResult)) (rest : List SdkIter)
    (endpoint key : String) (resp : HTTPResponse) (rrest : List RestIter)
    (h : pyLower line = "quit") :
    sdkLoop (⟨line, r⟩ :: rest) = [.line sdkPrompt]
  ∧ restLoop endpoint key (⟨line, resp⟩ :: rrest) = [.line restPrompt] := by
  constructor
  · simp [sdkLoop, h]
  · simp [restLoop, h]

/-- Closed instance of `lowercase_quit_terminates` at the line `"QUIT"`. -/
theorem lowercase_quit_terminates_witness :
    sdkLoop [⟨"QUIT", .ok []⟩] = [.line sdkPrompt]
  ∧ restLoop "https://e" "k" [⟨"QUIT", ⟨200, "", .error "x"⟩⟩] = [.line restPrompt] :=
  lowercase_quit_terminates "QUIT" (.ok []) [] "https://e" "k"
    ⟨200, "", .error "x"⟩ [] (by decide)

/-! ## Raw-HTTP error path (claim C4) -/

/-- C4: on any response with a status other than 200, `GetLanguage` raises an
`APIError` whose message carries the status code and the raw response body
(the status-mismatch `APIError` of line 193, re-wrapped by the generic
handler of lines 201-202). -/
theorem getLanguage_non200_apiError (endpoint key text : String) (resp : HTTPResponse)
    (h : resp.status ≠ 200) :
    (GetLanguage endpoint key text resp).result
      = .error (.apiError ("Unexpected error during API call: "
          ++ ("API returned status " ++ toString resp.status ++ ": " ++ resp.data))) := by
  simp [GetLanguage, h, wrapUnexpected, PyError.msg]

/-- Closed instance of `getLanguage_non200_apiError` at status 404. -/
theorem getLanguage_non200_apiError_witness :
    (GetLanguage "https://e" "k" "Hello" ⟨404, "Error message", .error "no json"⟩).result
      = .error (.apiError
          "Unexpected error during API call: API returned status 404: Error message") :=
  getLanguage_non200_apiError "https://e" "k" "Hello"
    ⟨404, "Error message", .error "no json"⟩ (by decide)

/-! ## SDK empty result list (claim C10) -/

/-- C10: an SDK call that returns an empty result list makes
`detect_language` raise an `IndexError` (not an `AzureError`), and inside the
loop that exception falls to the generic handler: it is printed as an
unexpected error and the loop continues with the remaining input. -/
theorem sdk_empty_result_recovered (line : String) (rest : List SdkIter)
    (hq : pyLower line ≠ "quit") (hv : TextValidator.validate line = .ok ()) :
    detect_language (.ok []) = .error (.indexError "list index out of range")
  ∧ (∀ m, detect_language (.ok ([] : List DetectLanguageResult))
      ≠ .error (.azureError m))
  ∧ sdkLoop (⟨line, .ok []⟩ :: rest)
      = .line sdkPrompt :: .line "Unexpected error: list index out of range"
        :: sdkLoop rest := by
  refine ⟨rfl, by simp [detect_language], ?_⟩
  simp [sdkLoop, hq, sdkIterOutputs, hv, detect_language, sdkExceptLine, PyError.msg]

/-- Closed instance of `sdk_empty_result_recovered` at the line `"Hello"`. -/
theorem sdk_empty_result_recovered_witness :
    detect_language (.ok []) = .error (.indexError "list index out of range")
  ∧ (∀ m, detect_language (.ok ([] : List DetectLanguageResult))
      ≠ .error (.azureError m))
  ∧ sdkLoop [⟨"Hello", .ok []⟩]
      = .line sdkPrompt :: .line "Unexpected error: list index out of range"
        :: sdkLoop [] :=
  sdk_empty_result_recovered "Hello" [] (by decide) rfl

/-! ## Success path (claim C5) -/

/-- C5: when the first result names English — for the SDK variant a first
document whose primary language is named `English`, for the raw-HTTP variant
a 200 body whose first document carries `detectedLanguage.name = "English"` —
the operation surfaces exactly the string `English`: `detect_language`
returns it, and `GetLanguage` prints the `Language: English` line. -/
theorem detect_english_result
    (d : DetectLanguageResult) (ds : List DetectLanguageResult)
    (endpoint key text data : String) (results doc dl : Json) (docs : List Json)
    (hname : d.primary_language.name = "English")
    (hdocs : jsonGet results "documents" = .ok (.arr (doc :: docs)))
    (hdl : jsonGet doc "detectedLanguage" = .ok dl)
    (hnm : jsonGet dl "name" = .ok (.str "English")) :
    detect_language (.ok (d :: ds)) = .ok "English"
  ∧ Output.line "\nLanguage: English"
      ∈ (GetLanguage endpoint key text ⟨200, data, .ok results⟩).outputs := by
  constructor
  · simp [detect_language, hname]
  · have hmerge : "\nLanguage: " ++ "English" = "\nLanguage: English" := rfl
    simp [GetLanguage, hdocs, pyIterElems, printLanguages, hdl, hnm, pyStrJson, hmerge]

/-- Closed instance of `detect_english_result` on `englishResults`. -/
theorem detect_english_result_witness :
    detect_language (.ok [⟨⟨"English"⟩⟩]) = .ok "English"
  ∧ Output.line "\nLanguage: English"
      ∈ (GetLanguage "https://e" "k" "Hello" ⟨200, "body", .ok englishResults⟩).outputs :=
  detect_english_result ⟨⟨"English"⟩⟩ [] "https://e" "k" "Hello" "body"
    englishResults englishDoc (.obj [("name", .str "English")]) []
    rfl rfl rfl rfl

/-! ## Loop error recovery (claim C6) -/

lemma from_env_error_shape (env : Env) (err : PyError)
    (h : Config.from_env env = .error err) : ∃ m, err = .configurationError m := by
  unfold Config.from_env at h
  dsimp only at h
  split_ifs at h
  · exact ⟨cfgMissingMsg, (Except.error.inj h).symm⟩
  · exact ⟨cfgSchemeMsg, (Except.error.inj h).symm⟩

lemma validate_configuration_error_shape (env : Env) (err : PyError)
    (h : validate_configuration env = .error err) : ∃ m, err = .configurationError m := by
  unfold validate_configuration at h
  dsimp only at h
  split_ifs at h
  · exact ⟨cfgMissingMsg, (Except.error.inj h).symm⟩
  · exact ⟨cfgSchemeMsg, (Except.error.inj h).symm⟩

/-- C6: every in-loop failure — a validation failure, a client failure, or
an exception no clause recognises (such as the `IndexError` of an empty
result list) — is printed with its kind-specific prefix and the loop goes on
with the remaining input; only a configuration-loading failure is fatal: it
is printed and re-raised out of `main`, while a loaded configuration always
ends in normal termination. -/
theorem loop_error_recovery (env : Env) (sIters rest : List SdkIter)
    (rIters rrest : List RestIter) (it : SdkIter) (rit : RestIter)
    (endpoint key : String) :
    (∀ err, Config.from_env env = .error err →
       sdk_main env sIters = ([.line ("Configuration error: " ++ err.msg)], .error err))
  ∧ (∀ err, validate_configuration env = .error err →
       rest_main env rIters = ([.line ("Configuration error: " ++ err.msg)], .error err))
  ∧ (∀ cfg, Config.from_env env = .ok cfg → (sdk_main env sIters).2 = .ok ())
  ∧ (∀ p, validate_configuration env = .ok p → (rest_main env rIters).2 = .ok ())
  ∧ (pyLower it.line ≠ "quit" →
       (∀ m, TextValidator.validate it.line = .error (.inputError m) →
          sdkLoop (it :: rest)
            = .line sdkPrompt :: .line ("Input error: " ++ m) :: sdkLoop rest)
     ∧ (∀ m, TextValidator.validate it.line = .ok () → it.serviceResult = .error m →
          sdkLoop (it :: rest)
            = .line sdkPrompt
              :: .line ("Azure service error: " ++ ("Failed to detect language: " ++ m))
              :: sdkLoop rest)
     ∧ (TextValidator.validate it.line = .ok () → it.serviceResult = .ok [] →
          sdkLoop (it :: rest)
            = .line sdkPrompt :: .line "Unexpected error: list index out of range"
              :: sdkLoop rest))
  ∧ (pyLower rit.line ≠ "quit" →
       (∀ m, validate_text rit.line = .error (.inputError m) →
          restLoop endpoint key (rit :: rrest)
            = .line restPrompt :: .line ("Input error: " ++ m)
              :: restLoop endpoint key rrest)
     ∧ (validate_text rit.line = .ok () → rit.resp.status ≠ 200 →
          restLoop endpoint key (rit :: rrest)
            = .line restPrompt :: (GetLanguage endpoint key rit.line rit.resp).outputs
              ++ .line ("API error: "
                  ++ ("Unexpected error during API call: "
                      ++ ("API returned status " ++ toString rit.resp.status
                          ++ ": " ++ rit.resp.data)))
              :: restLoop endpoint key rrest)) := by
  refine ⟨?_, ?_, ?_, ?_, fun hq => ⟨?_, ?_, ?_⟩, fun hq => ⟨?_, ?_⟩⟩
  · intro err herr
    obtain ⟨m, rfl⟩ := from_env_error_shape env err herr
    simp [sdk_main, herr, fatalLine, PyError.msg]
  · intro err herr
    obtain ⟨m, rfl⟩ := validate_configuration_error_shape env err herr
    simp [rest_main, herr, fatalLine, PyError.msg]
  · intro cfg hok; simp [sdk_main, hok]
  · intro p hok; simp [rest_main, hok]
  · intro m hv; simp [sdkLoop, hq, sdkIterOutputs, hv, sdkExceptLine]
  · intro m hv hsr
    simp [sdkLoop, hq, sdkIterOutputs, hv, hsr, detect_language, sdkExceptLine]
  · intro hv hsr
    simp [sdkLoop, hq, sdkIterOutputs, hv, hsr, detect_language, sdkExceptLine,
      PyError.msg]
  · intro m hv
    simp [restLoop, hq, restIterOutputs, hv, restExceptLine]
  · intro hv h200
    simp [restLoop, hq, restIterOutputs, hv, GetLanguage, h200, wrapUnexpected,
      restExceptLine, PyError.msg]

/-! ## Request construction (claim C7) -/

lemma pyReprEscChar_plain (q c : Char) (h1 : c ≠ '\\') (h2 : c ≠ q)
    (h3 : 32 ≤ c.toNat) (h4 : c.toNat ≠ 127) :
    pyReprEscChar q c = String.mk [c] := by
  unfold pyReprEscChar
  rw [if_neg h1, if_neg h2,
    if_neg (fun hh => absurd h3 (by subst hh; decide)),
    if_neg (fun hh => absurd h3 (by subst hh; decide)),
    if_neg (fun hh => absurd h3 (by subst hh; decide)),
    if_neg (by push_neg; exact ⟨by omega, h4⟩)]

lemma pyReprEsc_plain (q : Char) (l : List Char)
    (h : ∀ c ∈ l, c ≠ '\\' ∧ c ≠ q ∧ 32 ≤ c.toNat ∧ c.toNat ≠ 127) :
    pyReprEsc q l = String.mk l := by
  induction l with
  | nil => rfl
  | cons c cs ih =>
    obtain ⟨h1, h2, h3, h4⟩ := h c (List.mem_cons_self c cs)
    have hc := pyReprEscChar_plain q c h1 h2 h3 h4
    have hrest := ih fun x hx => h x (List.mem_cons_of_mem c hx)
    show pyReprEscChar q c ++ pyReprEsc q cs = String.mk (c :: cs)
    rw [hc, hrest]
    rfl

lemma pyReprStr_plain (s : String)
    (h : ∀ c ∈ s.data, c ≠ '\x27' ∧ c ≠ '\\' ∧ 32 ≤ c.toNat ∧ c.toNat ≠ 127) :
    pyReprStr s = "\x27" ++ s ++ "\x27" := by
  have hq : pyReprQuote s = '\x27' := by
    unfold pyReprQuote
    have hc : s.data.contains '\x27' = false := by
      by_contra hcc
      rw [Bool.not_eq_false] at hcc
      have hmem : '\x27' ∈ s.data := by simpa using hcc
      exact (h _ hmem).1 rfl
    rw [hc]
    rfl
  unfold pyReprStr
  rw [hq, pyReprEsc_plain _ _ fun c hc =>
    ⟨(h c hc).2.1, (h c hc).1, (h c hc).2.2.1, (h c hc).2.2.2⟩]

/-- C7 counterexample: at input `"Hello"` the bytes actually sent are the
Python `str()` rendering of the dict — single-quoted keys, integer id `1` —
which differs from the JSON value
`\x7b"documents":[\x7b"id":"1","text":"Hello"\x7d]\x7d` the claim states. -/
theorem c7_body_counterexample :
    (buildLanguageRequest "https://example.com/" "key" "Hello").body
      = "\x7b\x27documents\x27: [\x7b\x27id\x27: 1, \x27text\x27: \x27Hello\x27\x7d]\x7d"
  ∧ (buildLanguageRequest "https://example.com/" "key" "Hello").body
      ≠ "\x7b\"documents\":[\x7b\"id\":\"1\",\"text\":\"Hello\"\x7d]\x7d" := by
  refine ⟨rfl, ?_⟩
  decide

/-- C7 (amended): every call sends a POST to the fixed path
`/text/analytics/v3.1/languages?` on the configured endpoint host (scheme
prefix and trailing slashes removed), with `Content-Type: application/json`
and the key in the `Ocp-Apim-Subscription-Key` header; the body, however, is
the Python `str()` rendering of `\x7b\x27documents\x27: [\x7b\x27id\x27: 1,
\x27text\x27: text\x7d]\x7d` — single quotes, integer document id — not the
JSON encoding with a string id (stated here for text free of quotes,
backslashes and control characters, where `repr` adds plain quotes). -/
theorem buildLanguageRequest_spec (endpoint key text : String)
    (h : ∀ c ∈ text.data, c ≠ '\x27' ∧ c ≠ '\\' ∧ 32 ≤ c.toNat ∧ c.toNat ≠ 127) :
    buildLanguageRequest endpoint key text
      = { host := (pyRstripChar endpoint '/').replace "https://" ""
          method := "POST"
          path := "/text/analytics/v3.1/languages?"
          body := "\x7b\x27documents\x27: [\x7b\x27id\x27: 1, \x27text\x27: \x27"
            ++ text ++ "\x27\x7d]\x7d"
          headers := [("Content-Type", "application/json"),
            ("Ocp-Apim-Subscription-Key", key)] } := by
  have hbody : pyReprJson (jsonBodyValue text)
      = "\x7b\x27documents\x27: [\x7b\x27id\x27: 1, \x27text\x27: \x27"
        ++ text ++ "\x27\x7d]\x7d" := by
    have hrepr := pyReprStr_plain text h
    simp only [jsonBodyValue, pyReprJson, pyReprJsonFields, pyReprJsonList, hrepr]
    simp only [String.append_assoc]
    rfl
  unfold buildLanguageRequest
  rw [hbody]

/-- Closed instance of `buildLanguageRequest_spec` at the text `"Hello"`. -/
theorem buildLanguageRequest_spec_witness :
    buildLanguageRequest "https://example.com/" "apikey" "Hello"
      = { host := (pyRstripChar "https://example.com/" '/').replace "https://" ""
          method := "POST"
          path := "/text/analytics/v3.1/languages?"
          body := "\x7b\x27documents\x27: [\x7b\x27id\x27: 1, \x27text\x27: \x27"
            ++ "Hello" ++ "\x27\x7d]\x7d"
          headers := [("Content-Type", "application/json"),
            ("Ocp-Apim-Subscription-Key", "apikey")] } :=
  buildLanguageRequest_spec "https://example.com/" "apikey" "Hello" (by decide)

/-! ## Success-path document handling (claim C8) -/

/-- C8 counterexample: a 200 response whose `documents` array is empty makes
`GetLanguage` complete normally — the for loop over the array runs zero
times — with no index-out-of-range error and no language line printed. -/
theorem c8_empty_documents_counterexample :
    (GetLanguage "https://e" "k" "Hello"
        ⟨200, "\x7b\"documents\": []\x7d",
          .ok (Json.obj [("documents", Json.arr [])])⟩).result = .ok ()
  ∧ (GetLanguage "https://e" "k" "Hello"
        ⟨200, "\x7b\"documents\": []\x7d",
          .ok (Json.obj [("documents", Json.arr [])])⟩).outputs
      = [.dump (jsonBodyValue "Hello"), .dump (Json.obj [("documents", Json.arr [])])] :=
  ⟨rfl, rfl⟩

/-- C8 (amended): the success path surfaces the documents of the response in
order — the first language line printed is the first document's, which for
the always-one-document requests is the single submitted document — and for
a 200 response whose documents array is empty it completes successfully,
printing no language line and raising no error (there is no
index-out-of-range failure). -/
theorem getLanguage_documents_surfacing (endpoint key text data : String)
    (results doc dl emptyResults : Json) (docs : List Json) (name : String)
    (hdocs : jsonGet results "documents" = .ok (.arr (doc :: docs)))
    (hdl : jsonGet doc "detectedLanguage" = .ok dl)
    (hnm : jsonGet dl "name" = .ok (.str name))
    (hempty : jsonGet emptyResults "documents" = .ok (.arr [])) :
    ((GetLanguage endpoint key text ⟨200, data, .ok results⟩).outputs
        = .dump (jsonBodyValue text) :: .dump results
          :: .line ("\nLanguage: " ++ name) :: (printLanguages docs).1)
  ∧ GetLanguage endpoint key text ⟨200, data, .ok emptyResults⟩
      = ⟨buildLanguageRequest endpoint key text,
         [.dump (jsonBodyValue text), .dump emptyResults], .ok ()⟩ := by
  constructor
  · simp [GetLanguage, hdocs, pyIterElems, printLanguages, hdl, hnm, pyStrJson]
  · simp [GetLanguage, hempty, pyIterElems, printLanguages]

/-- Closed instance of `getLanguage_documents_surfacing` on `englishResults`
and an empty documents array. -/
theorem getLanguage_documents_surfacing_witness :
    ((GetLanguage "https://e" "k" "Hello" ⟨200, "body", .ok englishResults⟩).outputs
        = .dump (jsonBodyValue "Hello") :: .dump englishResults
          :: .line ("\nLanguage: " ++ "English") :: (printLanguages []).1)
  ∧ GetLanguage "https://e" "k" "Hello"
        ⟨200, "body", .ok (Json.obj [("documents", Json.arr [])])⟩
      = ⟨buildLanguageRequest "https://e" "k" "Hello",
         [.dump (jsonBodyValue "Hello"), .dump (Json.obj [("documents", Json.arr [])])],
         .ok ()⟩ :=
  getLanguage_documents_surfacing "https://e" "k" "Hello" "body"
    englishResults englishDoc (.obj [("name", .str "English")])
    (Json.obj [("documents", Json.arr [])]) [] "English"
    rfl rfl rfl rfl
